import Mathlib

/-!
Shallow embedding of the scheduling core of the repository
(`src/backend/app/models.py`, `src/backend/app/constraints.py`,
`src/backend/app/scheduler.py`) and proofs about the claims on it.

Times of day are represented as minutes since midnight: the source stores
"HH:MM" strings and compares them after `strptime` parsing, which orders
exactly as the minute values do.  Python enum members are embedded as
inductive types; SQLAlchemy tables that the core reads are embedded as
lists inside a `DB` record.
-/

namespace Scheduling

/-- `models.RoomType`. -/
inductive RoomType
  | STANDARD | LAB | SHOP | SCIENCE_LAB
deriving DecidableEq, Repr

/-- `models.TeacherStatus`. -/
inductive TeacherStatus
  | CONTRACT_OF_SERVICE | PERMANENT
deriving DecidableEq, Repr

/-- `models.Workload`. -/
inductive Workload
  | FULL_TIME | PART_TIME | VISITING
deriving DecidableEq, Repr

/-- `models.DayOfWeek`. -/
inductive DayOfWeek
  | MON | TUE | WED | THU | FRI | SAT
deriving DecidableEq, Repr

/-- `models.BlockSource`. -/
inductive BlockSource
  | MANUAL | AUTO_SATURDAY_COMP_OFF
deriving DecidableEq, Repr

/-- `models.CourseType`. -/
inductive CourseType
  | STANDARD | LAB | SHOP | SCIENCE_LAB | CWATS
deriving DecidableEq, Repr

/-- `models.ScheduleRunStatus`. -/
inductive ScheduleRunStatus
  | DRAFT | RUNNING | SUCCESS | FAILED
deriving DecidableEq, Repr

/-- The `.value` string of a `TeacherStatus` member. -/
def TeacherStatus.value : TeacherStatus → String
  | .CONTRACT_OF_SERVICE => "CONTRACT_OF_SERVICE"
  | .PERMANENT => "PERMANENT"

/-- The `.value` string of a `Workload` member. -/
def Workload.value : Workload → String
  | .FULL_TIME => "FULL_TIME"
  | .PART_TIME => "PART_TIME"
  | .VISITING => "VISITING"

/-- The `.value` string of a `DayOfWeek` member. -/
def DayOfWeek.value : DayOfWeek → String
  | .MON => "MON"
  | .TUE => "TUE"
  | .WED => "WED"
  | .THU => "THU"
  | .FRI => "FRI"
  | .SAT => "SAT"

/-- `models.Teacher` (the fields the core reads; `full_name`, `title`,
`employee_no` only feed log and message strings, which are not modelled). -/
structure Teacher where
  id : Nat
  status : TeacherStatus
  workload : Workload
  is_senior_old : Bool
deriving DecidableEq, Repr

/-- `models.Room` (fields the core reads). -/
structure Room where
  id : Nat
  room_code : String
  room_type : RoomType
  capacity : Nat
  active : Bool
deriving DecidableEq, Repr

/-- `models.Section` (fields the core reads). -/
structure Section where
  id : Nat
  is_first_year : Bool
deriving DecidableEq, Repr

/-- `models.Course`.  `units` is a one-decimal `Numeric`; it is embedded in
tenths (`units_x10 = 20` is `units == 2.0`). -/
structure Course where
  id : Nat
  units_x10 : Nat
  course_type : CourseType
deriving DecidableEq, Repr

/-- `models.Timeslot`; `start_time` and `end_time` in minutes since midnight. -/
structure Timeslot where
  id : Nat
  day_of_week : DayOfWeek
  start_time : Nat
  end_time : Nat
  is_cwats_slot : Bool
deriving DecidableEq, Repr

/-- `models.TeacherDayBlock`. -/
structure TeacherDayBlock where
  teacher_id : Nat
  day_of_week : DayOfWeek
  is_blocked : Bool
  source : BlockSource
deriving DecidableEq, Repr

/-- `models.RoomMaintenanceBlock`.  The source compares the block datetimes
to the timeslot combined with the current date, so both ends are embedded
as minutes on the scheduling day. -/
structure RoomMaintenanceBlock where
  room_id : Nat
  start_dt : Nat
  end_dt : Nat
deriving DecidableEq, Repr

/-- `models.TeachingAssignment` with its ORM relationships resolved, as the
scheduler reads them (`assignment.teacher`, `.course`, `.section`). -/
structure TeachingAssignment where
  id : Nat
  teacher : Teacher
  course : Course
  sect : Section
  term_id : Nat
deriving DecidableEq, Repr

/-- `models.ScheduleEntry` (fields written by the scheduler). -/
structure ScheduleEntry where
  schedule_run_id : Nat
  teacher_id : Nat
  section_id : Nat
  course_id : Nat
  room_id : Nat
  timeslot_id : Nat
  is_locked : Bool
deriving DecidableEq, Repr

/-- `models.ScheduleRun` (fields the scheduler reads or writes). -/
structure ScheduleRun where
  id : Nat
  term_id : Nat
  status : ScheduleRunStatus
  objective_score : Option Int
deriving DecidableEq, Repr

/-- The database tables the scheduling core queries or writes. -/
structure DB where
  teaching_assignments : List TeachingAssignment
  timeslots : List Timeslot
  rooms : List Room
  teacher_day_blocks : List TeacherDayBlock
  room_maintenance_blocks : List RoomMaintenanceBlock
  schedule_entries : List ScheduleEntry
deriving DecidableEq, Repr

/-- `constraints.ConstraintViolation`: `constraint_type` is the string
"HARD" or "SOFT", `severity` one of "CRITICAL", "HIGH", "MEDIUM", "LOW".
The human-readable `message` string is not modelled. -/
structure ConstraintViolation where
  constraint_type : String
  severity : String
deriving DecidableEq, Repr

/-- `constraints.TimePeriod` (the derived `duration_minutes` is unused by
the checks and omitted). -/
structure TimePeriod where
  start_time : Nat
  end_time : Nat
deriving DecidableEq, Repr

/-- `TimePeriod.overlaps_with`:
`not (self.end_time <= other.start_time or self.start_time >= other.end_time)`. -/
def TimePeriod.overlaps_with (a b : TimePeriod) : Bool :=
  !(decide (a.end_time ≤ b.start_time) || decide (a.start_time ≥ b.end_time))

/-- One `(teacher_id, start_time, end_time)` tuple of the
`existing_schedule` dictionary passed around by the scheduler. -/
structure SessionRec where
  teacher_id : Nat
  start_time : Nat
  end_time : Nat
deriving DecidableEq, Repr

/-- The `existing_schedule` dictionary
`{day_of_week.value : [(teacher_id, start_time, end_time), ...]}`,
as an insertion-ordered association list, exactly how a Python dict built
by repeated appends behaves. -/
def ExistingSchedule := List (String × List SessionRec)
deriving DecidableEq, Repr

/-- Dictionary lookup in an `ExistingSchedule`. -/
def schedLookup (d : ExistingSchedule) (k : String) : Option (List SessionRec) :=
  (List.find? (fun kv => decide (kv.1 = k)) d).map (fun kv => kv.2)

/-- Python truthiness of the optional `existing_schedule` argument:
`not existing_schedule` is true for `None` and for an empty dict. -/
def schedFalsy : Option ExistingSchedule → Bool
  | none => true
  | some d => List.isEmpty d

/-- A Python dictionary key or probe value for `ConstraintEngine.TIME_LIMITS`:
the dict keys are 2-tuples and 1-tuples of strings, while
`_check_time_limit` also probes membership with a bare string.  Distinct
Python types are never `==`, mirrored here by distinct constructors. -/
inductive PyVal
  | tuple2 (a b : String)
  | tuple1 (a : String)
  | str (s : String)
deriving DecidableEq, Repr

/-- Association-list lookup with Python `==` key equality. -/
def dictLookup (d : List (PyVal × Nat)) (k : PyVal) : Option Nat :=
  (List.find? (fun kv => decide (kv.1 = k)) d).map (fun kv => kv.2)

/-- `ConstraintEngine.EARLY_START_THRESHOLD` ("10:30"). -/
def EARLY_START_THRESHOLD : Nat := 630

/-- `ConstraintEngine.EARLY_START_LUNCH` ("11:30"). -/
def EARLY_START_LUNCH : Nat := 690

/-- `ConstraintEngine.LATE_START_LUNCH` ("14:30"). -/
def LATE_START_LUNCH : Nat := 870

/-- `ConstraintEngine.LUNCH_DURATION_MINUTES`. -/
def LUNCH_DURATION_MINUTES : Nat := 90

/-- `ConstraintEngine.TIME_LIMITS`: limits in minutes
(17:30 = 1050, 15:30 = 930, 20:00 = 1200). -/
def TIME_LIMITS : List (PyVal × Nat) :=
  [ (PyVal.tuple2 "CONTRACT_OF_SERVICE" "FULL_TIME", 1050),
    (PyVal.tuple2 "PERMANENT" "FULL_TIME", 930),
    (PyVal.tuple1 "PART_TIME", 1200),
    (PyVal.tuple1 "VISITING", 1200) ]

/-- `ConstraintEngine.SENIOR_ROOMS`. -/
def SENIOR_ROOMS : List String := ["A103", "A104", "A203"]

/-- In `_check_room_type_matching` the source evaluates
`room.room_type != course.course_type`; `RoomType` and `CourseType` are
distinct Python `Enum` classes, whose members are never equal to one
another, so this equality is always false. -/
def room_type_equals_course_type (_rt : RoomType) (_ct : CourseType) : Bool :=
  false

/-- `ConstraintEngine._check_room_type_matching`. -/
def check_room_type_matching (course : Course) (room : Room) :
    List ConstraintViolation :=
  if course.course_type = CourseType.STANDARD then []
  else if room_type_equals_course_type room.room_type course.course_type then []
  else [⟨"HARD", "CRITICAL"⟩]

/-- `ConstraintEngine._check_time_limit`.  The fallback membership probe
`teacher.workload.value in self.TIME_LIMITS` tests a string against
tuple-valued keys and thus never succeeds. -/
def check_time_limit (teacher : Teacher) (timeslot : Timeslot) :
    List ConstraintViolation :=
  let end_time := timeslot.end_time
  let key := PyVal.tuple2 teacher.status.value teacher.workload.value
  let keyUsed : Option PyVal :=
    if (dictLookup TIME_LIMITS key).isSome then some key
    else if (dictLookup TIME_LIMITS (PyVal.str teacher.workload.value)).isSome then
      some (PyVal.tuple1 teacher.workload.value)
    else none
  match keyUsed with
  | none => []
  | some k =>
    match dictLookup TIME_LIMITS k with
    | none => []  -- would be a Python KeyError; unreachable, the probe succeeded
    | some max_time =>
      if end_time > max_time then [⟨"HARD", "CRITICAL"⟩] else []

/-- `ConstraintEngine._check_teacher_lunch_break`. -/
def check_teacher_lunch_break (timeslot : Timeslot) :
    List ConstraintViolation :=
  let start_time := timeslot.start_time
  let lunch_start :=
    if start_time < EARLY_START_THRESHOLD then EARLY_START_LUNCH
    else LATE_START_LUNCH
  let lunch_end := lunch_start + LUNCH_DURATION_MINUTES
  let lunch_period : TimePeriod := ⟨lunch_start, lunch_end⟩
  let timeslot_period : TimePeriod := ⟨timeslot.start_time, timeslot.end_time⟩
  if timeslot_period.overlaps_with lunch_period then [⟨"HARD", "CRITICAL"⟩]
  else []

/-- Python set insertion (only membership and cardinality of the set are
consumed downstream). -/
def insertSet (l : List String) (x : String) : List String :=
  if l.contains x then l else l ++ [x]

/-- `ConstraintEngine._check_max_teaching_days`. -/
def check_max_teaching_days (teacher : Teacher) (timeslot : Timeslot)
    (existing_schedule : Option ExistingSchedule) : List ConstraintViolation :=
  if schedFalsy existing_schedule then []
  else
    let sched := existing_schedule.getD []
    let days0 : List String :=
      sched.foldl (fun acc kv =>
        kv.2.foldl (fun acc2 s =>
          if s.teacher_id = teacher.id then insertSet acc2 kv.1 else acc2) acc) []
    let teaching_days := insertSet days0 timeslot.day_of_week.value
    let v1 : List ConstraintViolation :=
      if teaching_days.length > 5 then [⟨"HARD", "CRITICAL"⟩] else []
    let v2 : List ConstraintViolation :=
      if timeslot.day_of_week = DayOfWeek.SAT ∧ teaching_days.length = 5 then
        let weekdays := teaching_days.filter (fun d => decide (d ≠ "SAT"))
        if weekdays.length ≠ 4 then [⟨"HARD", "HIGH"⟩] else []
      else []
    v1 ++ v2

/-- `ConstraintEngine._check_saturday_compensation`; the
`existing_schedule` parameter is accepted but unused in the source too. -/
def check_saturday_compensation (db : DB) (teacher : Teacher)
    (timeslot : Timeslot) (_existing_schedule : Option ExistingSchedule) :
    List ConstraintViolation :=
  if timeslot.day_of_week ≠ DayOfWeek.SAT then []
  else
    let blocked_days := db.teacher_day_blocks.filter (fun b =>
      decide (b.teacher_id = teacher.id ∧
        b.source = BlockSource.AUTO_SATURDAY_COMP_OFF ∧ b.is_blocked = true))
    if blocked_days.isEmpty then [⟨"HARD", "HIGH"⟩] else []

/-- `ConstraintEngine._check_first_year_cwats_vacancy`. -/
def check_first_year_cwats_vacancy (sect : Section) (timeslot : Timeslot) :
    List ConstraintViolation :=
  if !sect.is_first_year then []
  else if timeslot.day_of_week ≠ DayOfWeek.SAT then []
  else if !timeslot.is_cwats_slot then [⟨"HARD", "CRITICAL"⟩]
  else []

/-- `ConstraintEngine._check_room_maintenance_blocks`: one violation per
maintenance block of the room whose interval meets the timeslot. -/
def check_room_maintenance_blocks (db : DB) (room : Room)
    (timeslot : Timeslot) : List ConstraintViolation :=
  let maintenance_blocks :=
    db.room_maintenance_blocks.filter (fun b => decide (b.room_id = room.id))
  let overlapping := maintenance_blocks.filter (fun b =>
    !(decide (timeslot.end_time ≤ b.start_dt) ||
      decide (timeslot.start_time ≥ b.end_dt)))
  overlapping.map (fun _ => ⟨"HARD", "CRITICAL"⟩)

/-- `ConstraintEngine._check_no_overlap`.  Only the teacher id is compared
against the day's sessions (the dict carries no section information), and
the room check queries the persisted `ScheduleEntry` table. -/
def check_no_overlap (db : DB) (teacher : Teacher) (_sect : Section)
    (room : Room) (timeslot : Timeslot)
    (existing_schedule : Option ExistingSchedule) : List ConstraintViolation :=
  if schedFalsy existing_schedule then []
  else
    let sched := existing_schedule.getD []
    let day_key := timeslot.day_of_week.value
    let timeslot_period : TimePeriod := ⟨timeslot.start_time, timeslot.end_time⟩
    match schedLookup sched day_key with
    | none => []
    | some sessions =>
      let teacher_viols :=
        (sessions.filter (fun s =>
          timeslot_period.overlaps_with ⟨s.start_time, s.end_time⟩ &&
            decide (s.teacher_id = teacher.id))).map
          (fun _ => (⟨"HARD", "CRITICAL"⟩ : ConstraintViolation))
      let room_entries := db.schedule_entries.filter (fun e =>
        decide (e.room_id = room.id ∧ e.timeslot_id = timeslot.id))
      let room_viols : List ConstraintViolation :=
        if !room_entries.isEmpty then [⟨"HARD", "CRITICAL"⟩] else []
      teacher_viols ++ room_viols

/-- `ConstraintEngine._check_senior_priority`. -/
def check_senior_priority (teacher : Teacher) (room : Room) :
    List ConstraintViolation :=
  if !teacher.is_senior_old then []
  else if SENIOR_ROOMS.contains room.room_code then []
  else [⟨"SOFT", "MEDIUM"⟩]

/-- `ConstraintEngine._check_2hour_course_grouping`. -/
def check_2hour_course_grouping (course : Course) (room : Room) :
    List ConstraintViolation :=
  if course.units_x10 ≠ 20 then []
  else if room.capacity > 100 then [⟨"SOFT", "LOW"⟩]
  else []

/-- `ConstraintEngine._check_hard_constraints`: the eight hard checks in
source order, all collected. -/
def check_hard_constraints (db : DB) (teacher : Teacher) (course : Course)
    (sect : Section) (timeslot : Timeslot) (room : Room)
    (existing_schedule : Option ExistingSchedule) : List ConstraintViolation :=
  check_room_type_matching course room ++
  check_time_limit teacher timeslot ++
  check_teacher_lunch_break timeslot ++
  check_max_teaching_days teacher timeslot existing_schedule ++
  check_saturday_compensation db teacher timeslot existing_schedule ++
  check_first_year_cwats_vacancy sect timeslot ++
  check_room_maintenance_blocks db room timeslot ++
  check_no_overlap db teacher sect room timeslot existing_schedule

/-- `ConstraintEngine._check_soft_constraints`. -/
def check_soft_constraints (teacher : Teacher) (course : Course)
    (_sect : Section) (_timeslot : Timeslot) (room : Room) :
    List ConstraintViolation :=
  check_senior_priority teacher room ++ check_2hour_course_grouping course room

/-- `ConstraintEngine.validate_timeslot_for_assignment`. -/
def validate_timeslot_for_assignment (db : DB) (teacher : Teacher)
    (course : Course) (sect : Section) (timeslot : Timeslot) (room : Room)
    (existing_schedule : Option ExistingSchedule) :
    Bool × List ConstraintViolation :=
  let hard_violations :=
    check_hard_constraints db teacher course sect timeslot room existing_schedule
  if !hard_violations.isEmpty then (false, hard_violations)
  else (true,
    hard_violations ++ check_soft_constraints teacher course sect timeslot room)

/-- `scheduler.ScheduleAssignment` (the per-candidate `violations` list of
the Python object is never populated and is omitted). -/
structure ScheduleAssignment where
  teacher : Teacher
  course : Course
  sect : Section
  timeslot : Timeslot
  room : Room
deriving DecidableEq, Repr

/-- The mutable attributes of `CampusScheduler`: the committed assignment
list and the accumulated violation list. -/
structure SchedulerState where
  assignments : List ScheduleAssignment
  violations : List ConstraintViolation
deriving DecidableEq, Repr

/-- Append a value to the list stored under a key of the insertion-ordered
dictionary, creating the key at the end if absent. -/
def dictAppend (d : ExistingSchedule) (k : String) (v : SessionRec) :
    ExistingSchedule :=
  match d with
  | [] => [(k, [v])]
  | kv :: rest =>
    if kv.1 = k then (kv.1, kv.2 ++ [v]) :: rest
    else kv :: dictAppend rest k v

/-- `CampusScheduler._build_existing_schedule_dict`. -/
def build_existing_schedule_dict (assignments : List ScheduleAssignment) :
    ExistingSchedule :=
  assignments.foldl (fun d a =>
    dictAppend d a.timeslot.day_of_week.value
      ⟨a.teacher.id, a.timeslot.start_time, a.timeslot.end_time⟩) []

/-- The lexicographic priority key of
`CampusScheduler._sort_assignments_by_priority`.  `TeacherStatus` has
exactly the two members matched on, so the source fallback rank 4 is
unreachable. -/
def priority_key (prioritize_senior : Bool) (assignment : TeachingAssignment) :
    Nat × Nat × Nat :=
  let teacher := assignment.teacher
  let senior_priority : Nat :=
    if prioritize_senior && teacher.is_senior_old then 0 else 1
  let status_priority : Nat :=
    match teacher.status, teacher.workload with
    | .PERMANENT, .FULL_TIME => 0
    | .PERMANENT, _ => 2
    | .CONTRACT_OF_SERVICE, .FULL_TIME => 1
    | .CONTRACT_OF_SERVICE, _ => 3
  let year_priority : Nat := if assignment.sect.is_first_year then 0 else 1
  (senior_priority, status_priority, year_priority)

/-- The lexicographic order on priority keys that Python tuple comparison
implements. -/
def keyLex (k1 k2 : Nat × Nat × Nat) : Prop :=
  k1.1 < k2.1 ∨ (k1.1 = k2.1 ∧
    (k1.2.1 < k2.2.1 ∨ (k1.2.1 = k2.2.1 ∧ k1.2.2 ≤ k2.2.2)))

instance (k1 k2 : Nat × Nat × Nat) : Decidable (keyLex k1 k2) := by
  unfold keyLex; exact inferInstance

/-- The sorting relation used by `_sort_assignments_by_priority`. -/
def priorityRel (prioritize_senior : Bool)
    (x y : TeachingAssignment) : Prop :=
  keyLex (priority_key prioritize_senior x) (priority_key prioritize_senior y)

instance (ps : Bool) (x y : TeachingAssignment) :
    Decidable (priorityRel ps x y) := by
  unfold priorityRel; exact inferInstance

/-- `CampusScheduler._sort_assignments_by_priority`: Python `sorted` with a
key function is a stable sort by the key order; insertion sort with the
same total preorder realises exactly that stable sort. -/
def sort_assignments_by_priority (assignments : List TeachingAssignment)
    (prioritize_senior : Bool) : List TeachingAssignment :=
  List.insertionSort (priorityRel prioritize_senior) assignments

/-- The candidate loop of `CampusScheduler._assign_teaching_unit`: try the
`(timeslot, room)` pairs in order, extending the recorded violation list
with every validator result, and stop at the first feasible candidate. -/
def try_candidates (db : DB) (teacher : Teacher) (course : Course)
    (sect : Section) (existing_schedule : Option ExistingSchedule) :
    List (Timeslot × Room) → List ConstraintViolation →
    List ConstraintViolation × Option (Timeslot × Room)
  | [], acc => (acc, none)
  | (timeslot, room) :: rest, acc =>
    let res := validate_timeslot_for_assignment db teacher course sect
      timeslot room existing_schedule
    let acc2 := acc ++ res.2
    if res.1 then (acc2, some (timeslot, room))
    else try_candidates db teacher course sect existing_schedule rest acc2

/-- `CampusScheduler._assign_teaching_unit`. -/
def assign_teaching_unit (db : DB) (state : SchedulerState)
    (teaching_assignment : TeachingAssignment) (timeslots : List Timeslot)
    (rooms : List Room) : SchedulerState × Bool :=
  let teacher := teaching_assignment.teacher
  let course := teaching_assignment.course
  let sect := teaching_assignment.sect
  let existing_schedule := some (build_existing_schedule_dict state.assignments)
  let candidates := timeslots.flatMap (fun ts => rooms.map (fun r => (ts, r)))
  let res := try_candidates db teacher course sect existing_schedule
    candidates state.violations
  match res.2 with
  | some (timeslot, room) =>
    ({ assignments := state.assignments ++ [⟨teacher, course, sect, timeslot, room⟩],
       violations := res.1 }, true)
  | none => ({ state with violations := res.1 }, false)

/-- `CampusScheduler._save_schedule_entries`: append one `ScheduleEntry`
row per committed assignment. -/
def save_schedule_entries (db : DB) (schedule_run : ScheduleRun)
    (state : SchedulerState) : DB :=
  { db with schedule_entries := db.schedule_entries ++
      state.assignments.map (fun a =>
        ⟨schedule_run.id, a.teacher.id, a.sect.id, a.course.id,
         a.room.id, a.timeslot.id, false⟩) }

/-- `CampusScheduler._calculate_objective_score`: 1000, minus 10 per SOFT
violation, plus 5 per assignment, clamped by `max(0, score)`.  The float
arithmetic of the source is exact at these magnitudes. -/
def calculate_objective_score (state : SchedulerState) : Int :=
  let score : Int := 1000
  let soft_violations :=
    state.violations.filter (fun v => decide (v.constraint_type = "SOFT"))
  let score := score - (soft_violations.length : Int) * 10
  let score := score + (state.assignments.length : Int) * 5
  max 0 score

/-- The outcome of `CampusScheduler.generate_schedule`: the database after
the run, the updated `ScheduleRun` row, the returned success flag, the
final scheduler state and the number of unplaceable units. -/
structure GenResult where
  db : DB
  run : ScheduleRun
  success : Bool
  state : SchedulerState
  failed_count : Nat
deriving DecidableEq, Repr

/-- `CampusScheduler.generate_schedule`.  The early data-availability
returns leave the run row untouched; otherwise entries are saved first and
the run is marked FAILED when any recorded violation is HARD, else SUCCESS
with the objective score. -/
def generate_schedule (db : DB) (schedule_run : ScheduleRun) (term_id : Nat)
    (prioritize_senior : Bool) : GenResult :=
  let teaching_assignments :=
    db.teaching_assignments.filter (fun ta => decide (ta.term_id = term_id))
  if teaching_assignments.isEmpty then ⟨db, schedule_run, false, ⟨[], []⟩, 0⟩
  else
    let timeslots := db.timeslots
    if timeslots.isEmpty then ⟨db, schedule_run, false, ⟨[], []⟩, 0⟩
    else
      let rooms := db.rooms.filter (fun r => r.active)
      if rooms.isEmpty then ⟨db, schedule_run, false, ⟨[], []⟩, 0⟩
      else
        let sorted_assignments :=
          sort_assignments_by_priority teaching_assignments prioritize_senior
        let final := sorted_assignments.foldl
          (fun (acc : SchedulerState × Nat) ta =>
            let res := assign_teaching_unit db acc.1 ta timeslots rooms
            (res.1, if res.2 then acc.2 else acc.2 + 1))
          (⟨[], []⟩, 0)
        let state := final.1
        let failed_count := final.2
        let db2 := save_schedule_entries db schedule_run state
        let hard_violations :=
          state.violations.filter (fun v => decide (v.constraint_type = "HARD"))
        if !hard_violations.isEmpty then
          ⟨db2, { schedule_run with status := ScheduleRunStatus.FAILED },
           false, state, failed_count⟩
        else
          let run2 := { schedule_run with
            status := ScheduleRunStatus.SUCCESS
            objective_score := some (calculate_objective_score state) }
          ⟨db2, run2, true, state, failed_count⟩

/-! ### Helper lemmas: hard checks emit only HARD violations, soft checks
only SOFT ones. -/

theorem ite_not_nil_iff_cond {b : Bool} {v : ConstraintViolation} :
    ((if b = true then [v] else []) ≠ [] ↔ b = true) := by
  cases b <;> simp

theorem overlaps_with_iff (a b : TimePeriod) :
    a.overlaps_with b = true ↔
      b.start_time < a.end_time ∧ a.start_time < b.end_time := by
  unfold TimePeriod.overlaps_with
  rw [Bool.not_eq_true', Bool.or_eq_false_iff]
  simp only [decide_eq_false_iff_not, not_le, ge_iff_le, not_le]

theorem check_room_type_matching_hard (course : Course) (room : Room) :
    ∀ v ∈ check_room_type_matching course room, v.constraint_type = "HARD" := by
  intro v hv
  simp only [check_room_type_matching] at hv
  repeat' split at hv
  all_goals aesop

theorem check_time_limit_hard (teacher : Teacher) (timeslot : Timeslot) :
    ∀ v ∈ check_time_limit teacher timeslot, v.constraint_type = "HARD" := by
  intro v hv
  simp only [check_time_limit] at hv
  repeat' split at hv
  all_goals aesop

theorem check_teacher_lunch_break_hard (timeslot : Timeslot) :
    ∀ v ∈ check_teacher_lunch_break timeslot, v.constraint_type = "HARD" := by
  intro v hv
  simp only [check_teacher_lunch_break] at hv
  repeat' split at hv
  all_goals aesop

theorem check_max_teaching_days_hard (teacher : Teacher) (timeslot : Timeslot)
    (es : Option ExistingSchedule) :
    ∀ v ∈ check_max_teaching_days teacher timeslot es,
      v.constraint_type = "HARD" := by
  intro v hv
  simp only [check_max_teaching_days] at hv
  repeat' split at hv
  all_goals aesop

theorem check_saturday_compensation_hard (db : DB) (teacher : Teacher)
    (timeslot : Timeslot) (es : Option ExistingSchedule) :
    ∀ v ∈ check_saturday_compensation db teacher timeslot es,
      v.constraint_type = "HARD" := by
  intro v hv
  simp only [check_saturday_compensation] at hv
  repeat' split at hv
  all_goals aesop

theorem check_first_year_cwats_vacancy_hard (sect : Section)
    (timeslot : Timeslot) :
    ∀ v ∈ check_first_year_cwats_vacancy sect timeslot,
      v.constraint_type = "HARD" := by
  intro v hv
  simp only [check_first_year_cwats_vacancy] at hv
  repeat' split at hv
  all_goals aesop

theorem check_room_maintenance_blocks_hard (db : DB) (room : Room)
    (timeslot : Timeslot) :
    ∀ v ∈ check_room_maintenance_blocks db room timeslot,
      v.constraint_type = "HARD" := by
  intro v hv
  simp only [check_room_maintenance_blocks] at hv
  aesop

theorem check_no_overlap_hard (db : DB) (teacher : Teacher) (sect : Section)
    (room : Room) (timeslot : Timeslot) (es : Option ExistingSchedule) :
    ∀ v ∈ check_no_overlap db teacher sect room timeslot es,
      v.constraint_type = "HARD" := by
  intro v hv
  simp only [check_no_overlap] at hv
  repeat' split at hv
  all_goals aesop

theorem check_hard_constraints_hard (db : DB) (teacher : Teacher)
    (course : Course) (sect : Section) (timeslot : Timeslot) (room : Room)
    (es : Option ExistingSchedule) :
    ∀ v ∈ check_hard_constraints db teacher course sect timeslot room es,
      v.constraint_type = "HARD" := by
  intro v hv
  unfold check_hard_constraints at hv
  simp only [List.mem_append] at hv
  rcases hv with ((((((hv | hv) | hv) | hv) | hv) | hv) | hv) | hv
  · exact check_room_type_matching_hard course room v hv
  · exact check_time_limit_hard teacher timeslot v hv
  · exact check_teacher_lunch_break_hard timeslot v hv
  · exact check_max_teaching_days_hard teacher timeslot es v hv
  · exact check_saturday_compensation_hard db teacher timeslot es v hv
  · exact check_first_year_cwats_vacancy_hard sect timeslot v hv
  · exact check_room_maintenance_blocks_hard db room timeslot v hv
  · exact check_no_overlap_hard db teacher sect room timeslot es v hv

theorem check_soft_constraints_soft (teacher : Teacher) (course : Course)
    (sect : Section) (timeslot : Timeslot) (room : Room) :
    ∀ v ∈ check_soft_constraints teacher course sect timeslot room,
      v.constraint_type = "SOFT" := by
  intro v hv
  simp only [check_soft_constraints, check_senior_priority,
    check_2hour_course_grouping] at hv
  repeat' split at hv
  all_goals aesop

theorem validate_characterization (db : DB) (teacher : Teacher)
    (course : Course) (sect : Section) (timeslot : Timeslot) (room : Room)
    (es : Option ExistingSchedule) :
    validate_timeslot_for_assignment db teacher course sect timeslot room es =
      if (check_hard_constraints db teacher course sect timeslot room es).isEmpty
      then (true, check_hard_constraints db teacher course sect timeslot room es ++
            check_soft_constraints teacher course sect timeslot room)
      else (false, check_hard_constraints db teacher course sect timeslot room es) := by
  unfold validate_timeslot_for_assignment
  by_cases h : (check_hard_constraints db teacher course sect timeslot room
      es).isEmpty
  · simp [h]
  · simp [h]

/-- C4: for every candidate, the validator collects the violations of all
eight hard rules into the returned list, reports `feasible = true` exactly
when no Hard violation is present in it, and appends Soft violations only
in the feasible case, so an infeasible result contains only Hard
violations. -/
theorem C4_validator_hard_soft_partition (db : DB) (teacher : Teacher)
    (course : Course) (sect : Section) (timeslot : Timeslot) (room : Room)
    (es : Option ExistingSchedule) :
    (validate_timeslot_for_assignment db teacher course sect timeslot room es).2
      = (if (check_hard_constraints db teacher course sect timeslot room es).isEmpty
         then check_hard_constraints db teacher course sect timeslot room es ++
              check_soft_constraints teacher course sect timeslot room
         else check_hard_constraints db teacher course sect timeslot room es) ∧
    ((validate_timeslot_for_assignment db teacher course sect timeslot room es).1
        = true ↔
      ∀ v ∈ (validate_timeslot_for_assignment db teacher course sect timeslot
        room es).2, v.constraint_type ≠ "HARD") ∧
    ((validate_timeslot_for_assignment db teacher course sect timeslot room es).1
        = false →
      ∀ v ∈ (validate_timeslot_for_assignment db teacher course sect timeslot
        room es).2, v.constraint_type = "HARD") := by
  rw [validate_characterization db teacher course sect timeslot room es]
  by_cases h : (check_hard_constraints db teacher course sect timeslot room
      es).isEmpty
  · rw [if_pos h, if_pos h]
    rw [List.isEmpty_iff] at h
    refine ⟨rfl, ?_, ?_⟩
    · simp only [h, List.nil_append]
      constructor
      · intro _ v hv hcontra
        have hsoft := check_soft_constraints_soft teacher course sect timeslot
          room v hv
        rw [hsoft] at hcontra
        exact absurd hcontra (by decide)
      · intro _; trivial
    · intro hfalse
      exact absurd hfalse (by simp)
  · rw [if_neg h, if_neg h]
    have hne : check_hard_constraints db teacher course sect timeslot room es
        ≠ [] := fun hnil => h (by simp [hnil])
    refine ⟨rfl, ?_, ?_⟩
    · constructor
      · intro hc
        exact absurd hc (by simp)
      · intro hall
        exfalso
        obtain ⟨v, hv⟩ := List.exists_mem_of_ne_nil _ hne
        exact hall v hv
          (check_hard_constraints_hard db teacher course sect timeslot room es
            v hv)
    · intro _ v hv
      exact check_hard_constraints_hard db teacher course sect timeslot room es
        v hv

theorem check_teacher_lunch_break_eq (timeslot : Timeslot) :
    check_teacher_lunch_break timeslot =
      if (TimePeriod.mk timeslot.start_time timeslot.end_time).overlaps_with
          ⟨if timeslot.start_time < 630 then 690 else 870,
           (if timeslot.start_time < 630 then 690 else 870) + 90⟩ = true then
        [⟨"HARD", "CRITICAL"⟩] else [] := by
  unfold check_teacher_lunch_break EARLY_START_THRESHOLD EARLY_START_LUNCH
    LATE_START_LUNCH LUNCH_DURATION_MINUTES
  by_cases hs : timeslot.start_time < 630 <;> simp [hs]

/-- C6: the lunch-window check picks the lunch interval from the timeslot
start alone, namely 11:30 to 13:00 when the start is before 10:30 and
14:30 to 16:00 otherwise, and emits a Hard violation exactly when that
interval overlaps the half-open timeslot interval. -/
theorem C6_lunch_window_exact (timeslot : Timeslot) :
    (check_teacher_lunch_break timeslot ≠ [] ↔
      (if timeslot.start_time < 630 then
        690 < timeslot.end_time ∧ timeslot.start_time < 780
      else
        870 < timeslot.end_time ∧ timeslot.start_time < 960)) ∧
    ∀ v ∈ check_teacher_lunch_break timeslot, v.constraint_type = "HARD" := by
  refine ⟨?_, check_teacher_lunch_break_hard timeslot⟩
  rw [check_teacher_lunch_break_eq]
  by_cases hs : timeslot.start_time < 630 <;>
    simp only [hs, if_true, if_false, ite_not_nil_iff_cond, overlaps_with_iff]
  all_goals split
  all_goals simp_all

/-- C9: with `existing_schedule = None` the max-teaching-days check (H4)
and the overlap check (H8) return no violations vacuously, for every
candidate; occupancy information must be supplied by the caller for these
rules to have any effect. -/
theorem C9_none_schedule_vacuous (db : DB) (teacher : Teacher)
    (sect : Section) (room : Room) (timeslot : Timeslot) :
    check_max_teaching_days teacher timeslot none = [] ∧
    check_no_overlap db teacher sect room timeslot none = [] :=
  ⟨rfl, rfl⟩

/-- C10: the objective score is clamped at zero: for every scheduler state
it equals `max 0 (1000 - 10 * soft + 5 * assignments)` and in particular is
never negative. -/
theorem C10_score_clamped (state : SchedulerState) :
    0 ≤ calculate_objective_score state ∧
    calculate_objective_score state =
      max 0 (1000 -
        ((state.violations.filter
          (fun v => decide (v.constraint_type = "SOFT"))).length : Int) * 10 +
        ((state.assignments.length : Int)) * 5) :=
  ⟨le_max_left 0 _, rfl⟩

/-- A teacher whose `(status, workload)` pair hits no `TIME_LIMITS` key:
Permanent and Part-Time. -/
def c3_teacher : Teacher := ⟨3, .PERMANENT, .PART_TIME, false⟩

/-- A timeslot ending at 20:30, past the claimed 20:00 ceiling. -/
def c3_timeslot : Timeslot := ⟨9, .MON, 1110, 1230, false⟩

/-- C3: the code evaluated at the failing input of the claim.  For a
(Permanent, Part-Time) teacher and a timeslot ending 20:30 the end-of-day
check returns no violation although 20:30 exceeds the claimed 20:00
ceiling: the fallback probe `workload.value in TIME_LIMITS` compares a
string with tuple keys and never succeeds, so no ceiling at all applies to
Part-Time or Visiting teachers.  The two full-time ceilings do work, shown
here at 15:31 for (Permanent, Full-Time). -/
theorem C3_no_evening_ceiling :
    check_time_limit c3_teacher c3_timeslot = [] ∧
    c3_timeslot.end_time > 1200 ∧
    check_time_limit ⟨1, .PERMANENT, .FULL_TIME, false⟩
      ⟨9, .MON, 600, 931, false⟩ = [⟨"HARD", "CRITICAL"⟩] ∧
    check_time_limit ⟨1, .CONTRACT_OF_SERVICE, .FULL_TIME, false⟩
      ⟨9, .MON, 600, 1051, false⟩ = [⟨"HARD", "CRITICAL"⟩] := by
  refine ⟨rfl, by decide, rfl, rfl⟩

/-- Teacher of the C1 scenario. -/
def c1_teacher : Teacher := ⟨1, .PERMANENT, .FULL_TIME, false⟩

/-- Standard three-unit course of the C1 scenario. -/
def c1_course : Course := ⟨1, 30, .STANDARD⟩

/-- Non-first-year section of the C1 scenario. -/
def c1_sect : Section := ⟨1, false⟩

/-- First candidate timeslot of the C1 scenario: Monday 10:00 to 12:00,
which starts before 10:30 and overlaps the 11:30 lunch window, so H3
rejects it. -/
def c1_ts_lunch : Timeslot := ⟨1, .MON, 600, 720, false⟩

/-- Second candidate timeslot of the C1 scenario: Monday 07:30 to 09:00,
feasible. -/
def c1_ts_ok : Timeslot := ⟨2, .MON, 450, 540, false⟩

/-- The single active room of the C1 scenario. -/
def c1_room : Room := ⟨1, "A101", .STANDARD, 30, true⟩

/-- Database of the C1 scenario: one teaching unit, two timeslots, one
room, no blocks, no persisted entries. -/
def c1_db : DB :=
  ⟨[⟨1, c1_teacher, c1_course, c1_sect, 1⟩], [c1_ts_lunch, c1_ts_ok],
   [c1_room], [], [], []⟩

/-- A fresh draft run row. -/
def c1_run : ScheduleRun := ⟨1, 1, .DRAFT, none⟩

/-- C1 counterexample: in this run the single teaching unit is placed (at
the second candidate) and the committed assignment satisfies every hard
rule against the rest of the committed set, yet the terminal status is
FAILED, because the Hard violation recorded for the rejected first
candidate is counted by the driver when it chooses the final status. -/
theorem C1_counterexample :
    (generate_schedule c1_db c1_run 1 true).state.assignments =
      [⟨c1_teacher, c1_course, c1_sect, c1_ts_ok, c1_room⟩] ∧
    (generate_schedule c1_db c1_run 1 true).failed_count = 0 ∧
    check_hard_constraints c1_db c1_teacher c1_course c1_sect c1_ts_ok c1_room
      (some (build_existing_schedule_dict [])) = [] ∧
    (generate_schedule c1_db c1_run 1 true).run.status =
      ScheduleRunStatus.FAILED ∧
    (generate_schedule c1_db c1_run 1 true).success = false := by
  refine ⟨by decide, by decide, by decide, by decide, by decide⟩

/-- C1 amended: whenever the three data-availability checks pass, the
terminal status is SUCCESS exactly when no Hard violation was recorded
during the whole run, rejected candidates included; a rejected candidate
always records one, so any rejection forces FAILED even when every unit
was placed. -/
theorem C1_amended_status_iff_no_recorded_hard (db : DB) (run : ScheduleRun)
    (term_id : Nat) (ps : Bool)
    (h1 : (db.teaching_assignments.filter
      (fun ta => decide (ta.term_id = term_id))).isEmpty = false)
    (h2 : db.timeslots.isEmpty = false)
    (h3 : (db.rooms.filter (fun r => r.active)).isEmpty = false) :
    (generate_schedule db run term_id ps).run.status =
        ScheduleRunStatus.SUCCESS ↔
      ∀ v ∈ (generate_schedule db run term_id ps).state.violations,
        v.constraint_type ≠ "HARD" := by
  unfold generate_schedule
  simp only [h1, h2, h3, Bool.false_eq_true, if_false]
  split
  · rename_i hcond
    simp only [Bool.not_eq_true', List.isEmpty_eq_false] at hcond
    constructor
    · intro hc
      exact absurd hc (by simp)
    · intro hall
      exfalso
      obtain ⟨v, hv⟩ := List.exists_mem_of_ne_nil _ hcond
      rw [List.mem_filter] at hv
      exact hall v hv.1 (by simpa using hv.2)
  · rename_i hcond
    simp only [Bool.not_eq_true, Bool.not_eq_false'] at hcond
    rw [List.isEmpty_iff, List.filter_eq_nil_iff] at hcond
    constructor
    · intro _ v hv hHard
      exact hcond v hv (by simp [hHard])
    · intro _
      rfl

/-- C1 amended witness: the concrete C1 scenario satisfies the three
data-availability hypotheses, and the equivalence holds there (both sides
false: one Hard violation was recorded and the status is FAILED). -/
theorem C1_amended_status_iff_no_recorded_hard_witness :
    ((c1_db.teaching_assignments.filter
        (fun ta => decide (ta.term_id = 1))).isEmpty = false ∧
      c1_db.timeslots.isEmpty = false ∧
      (c1_db.rooms.filter (fun r => r.active)).isEmpty = false) ∧
    ((generate_schedule c1_db c1_run 1 true).run.status =
        ScheduleRunStatus.SUCCESS ↔
      ∀ v ∈ (generate_schedule c1_db c1_run 1 true).state.violations,
        v.constraint_type ≠ "HARD") :=
  ⟨⟨by decide, by decide, by decide⟩,
   C1_amended_status_iff_no_recorded_hard c1_db c1_run 1 true
     (by decide) (by decide) (by decide)⟩

/-- First teacher of the C2 scenario. -/
def c2_teacher1 : Teacher := ⟨1, .PERMANENT, .FULL_TIME, false⟩

/-- Second teacher of the C2 scenario. -/
def c2_teacher2 : Teacher := ⟨2, .PERMANENT, .FULL_TIME, false⟩

/-- The section shared by both teaching units of the C2 scenario. -/
def c2_sect : Section := ⟨7, false⟩

/-- Standard course of the C2 scenario. -/
def c2_course : Course := ⟨1, 30, .STANDARD⟩

/-- The single timeslot of the C2 scenario: Monday 07:30 to 09:00. -/
def c2_ts : Timeslot := ⟨1, .MON, 450, 540, false⟩

/-- The single room of the C2 scenario. -/
def c2_room : Room := ⟨1, "A101", .STANDARD, 30, true⟩

/-- Database of the C2 scenario: two teaching units of the same section
with different teachers, one timeslot, one room. -/
def c2_db : DB :=
  ⟨[⟨1, c2_teacher1, c2_course, c2_sect, 1⟩,
    ⟨2, c2_teacher2, c2_course, c2_sect, 1⟩],
   [c2_ts], [c2_room], [], [], []⟩

/-- Run row of the C2 scenario. -/
def c2_run : ScheduleRun := ⟨1, 1, .DRAFT, none⟩

/-- C2: the code evaluated at the failing input of the claim.  Both units
of the same section are committed to the same timeslot and the same room
(trivially overlapping intervals), and the run even reports SUCCESS: the
overlap check compares only teacher ids against the partial-schedule dict,
and its room check reads the `ScheduleEntry` table, which is only written
after the run ends, so neither the section collision nor the
room collision is detected. -/
theorem C2_overlap_not_rejected :
    (generate_schedule c2_db c2_run 1 true).state.assignments.map
      (fun a => (a.sect.id, a.timeslot.id, a.room.id)) =
      [(7, 1, 1), (7, 1, 1)] ∧
    (generate_schedule c2_db c2_run 1 true).run.status =
      ScheduleRunStatus.SUCCESS ∧
    (TimePeriod.mk c2_ts.start_time c2_ts.end_time).overlaps_with
      ⟨c2_ts.start_time, c2_ts.end_time⟩ = true := by
  refine ⟨by decide, by decide, by decide⟩

/-- Teacher of the C5 scenario, owning no day blocks. -/
def c5_teacher : Teacher := ⟨1, .PERMANENT, .FULL_TIME, false⟩

/-- Standard course of the C5 scenario. -/
def c5_course : Course := ⟨1, 30, .STANDARD⟩

/-- Non-first-year section of the C5 scenario. -/
def c5_sect : Section := ⟨1, false⟩

/-- The only timeslot of the C5 scenario: Saturday 07:30 to 09:00. -/
def c5_ts : Timeslot := ⟨1, .SAT, 450, 540, false⟩

/-- Room of the C5 scenario. -/
def c5_room : Room := ⟨1, "A101", .STANDARD, 30, true⟩

/-- Database of the C5 scenario: one unit, a Saturday-only timeslot pool,
and an empty `TeacherDayBlock` table. -/
def c5_db : DB :=
  ⟨[⟨1, c5_teacher, c5_course, c5_sect, 1⟩], [c5_ts], [c5_room], [], [], []⟩

/-- Run row of the C5 scenario. -/
def c5_run : ScheduleRun := ⟨1, 1, .DRAFT, none⟩

/-- C5 counterexample: a greedy attempt places this teacher on Saturday for
the first time, but the driver installs no `TeacherDayBlock` whatsoever
(the block table is still empty after the run); instead the candidate is
rejected by H5 and the unit stays unplaced. -/
theorem C5_counterexample :
    (generate_schedule c5_db c5_run 1 true).db.teacher_day_blocks = [] ∧
    (generate_schedule c5_db c5_run 1 true).state.assignments = [] ∧
    (generate_schedule c5_db c5_run 1 true).failed_count = 1 := by
  refine ⟨by decide, by decide, by decide⟩

/-- C5 amended: the scheduling run mutates no master data at all — the
teaching-assignment, timeslot, room, teacher-day-block and maintenance
tables come out unchanged and the only database write is appending
`ScheduleEntry` rows — and validator H5 simply rejects a Saturday
candidate whenever the teacher owns no blocked AutoSatCompOff day. -/
theorem C5_amended_no_master_mutation (db : DB) (run : ScheduleRun)
    (term_id : Nat) (ps : Bool) :
    ((generate_schedule db run term_id ps).db.teaching_assignments =
        db.teaching_assignments ∧
      (generate_schedule db run term_id ps).db.timeslots = db.timeslots ∧
      (generate_schedule db run term_id ps).db.rooms = db.rooms ∧
      (generate_schedule db run term_id ps).db.teacher_day_blocks =
        db.teacher_day_blocks ∧
      (generate_schedule db run term_id ps).db.room_maintenance_blocks =
        db.room_maintenance_blocks ∧
      ∃ new_entries,
        (generate_schedule db run term_id ps).db.schedule_entries =
          db.schedule_entries ++ new_entries) ∧
    ∀ (teacher : Teacher) (timeslot : Timeslot)
      (es : Option ExistingSchedule),
      timeslot.day_of_week = DayOfWeek.SAT →
      db.teacher_day_blocks.filter (fun b =>
        decide (b.teacher_id = teacher.id ∧
          b.source = BlockSource.AUTO_SATURDAY_COMP_OFF ∧
          b.is_blocked = true)) = [] →
      check_saturday_compensation db teacher timeslot es ≠ [] := by
  constructor
  · simp only [generate_schedule]
    repeat' split
    all_goals
      first
      | exact ⟨rfl, rfl, rfl, rfl, rfl, ⟨_, rfl⟩⟩
      | exact ⟨rfl, rfl, rfl, rfl, rfl, ⟨[], by simp⟩⟩
  · intro teacher timeslot es hsat hfilter
    unfold check_saturday_compensation
    rw [if_neg (by simp [hsat])]
    rw [hfilter]
    simp

/-- C5 amended witness: the amended frame property and H5 rejection at the
concrete C5 scenario. -/
theorem C5_amended_no_master_mutation_witness :
    ((generate_schedule c5_db c5_run 1 true).db.teaching_assignments =
        c5_db.teaching_assignments ∧
      (generate_schedule c5_db c5_run 1 true).db.timeslots = c5_db.timeslots ∧
      (generate_schedule c5_db c5_run 1 true).db.rooms = c5_db.rooms ∧
      (generate_schedule c5_db c5_run 1 true).db.teacher_day_blocks =
        c5_db.teacher_day_blocks ∧
      (generate_schedule c5_db c5_run 1 true).db.room_maintenance_blocks =
        c5_db.room_maintenance_blocks ∧
      ∃ new_entries,
        (generate_schedule c5_db c5_run 1 true).db.schedule_entries =
          c5_db.schedule_entries ++ new_entries) ∧
    c5_ts.day_of_week = DayOfWeek.SAT ∧
    c5_db.teacher_day_blocks.filter (fun b =>
      decide (b.teacher_id = c5_teacher.id ∧
        b.source = BlockSource.AUTO_SATURDAY_COMP_OFF ∧
        b.is_blocked = true)) = [] ∧
    check_saturday_compensation c5_db c5_teacher c5_ts none ≠ [] :=
  ⟨(C5_amended_no_master_mutation c5_db c5_run 1 true).1,
   by decide, by decide,
   (C5_amended_no_master_mutation c5_db c5_run 1 true).2 c5_teacher c5_ts none
     (by decide) (by decide)⟩

/-- One of the 67 teaching units of the C7 scenario: senior Permanent
Part-Time teacher `i`, a shared 2.0-unit standard course, section `i`. -/
def c7_mk_unit (i : Nat) : TeachingAssignment :=
  ⟨i, ⟨i, .PERMANENT, .PART_TIME, true⟩, ⟨1, 20, .STANDARD⟩, ⟨i, false⟩, 1⟩

/-- Database of the C7 scenario: 67 units, one Monday 07:30 to 09:00
timeslot and one large non-senior room, so every unit commits on its first
candidate with two soft violations. -/
def c7_db : DB :=
  ⟨(List.range 67).map c7_mk_unit, [⟨1, .MON, 450, 540, false⟩],
   [⟨1, "B201", .STANDARD, 150, true⟩], [], [], []⟩

/-- Run row of the C7 scenario. -/
def c7_run : ScheduleRun := ⟨1, 1, .DRAFT, none⟩

set_option maxRecDepth 1000000 in
/-- C7 counterexample: a successful run with 67 assignments and 134 soft
violations reports objective score 0, while the formula of the claim gives
1000 − 10·134 + 5·67 = −5 (subtracting any nonnegative gap penalties only
lowers it further), so the reported score differs from the claimed
formula. -/
theorem C7_counterexample :
    (generate_schedule c7_db c7_run 1 true).success = true ∧
    (generate_schedule c7_db c7_run 1 true).run.status =
      ScheduleRunStatus.SUCCESS ∧
    (generate_schedule c7_db c7_run 1 true).run.objective_score = some 0 ∧
    (generate_schedule c7_db c7_run 1 true).state.assignments.length = 67 ∧
    ((generate_schedule c7_db c7_run 1 true).state.violations.filter
      (fun v => decide (v.constraint_type = "SOFT"))).length = 134 ∧
    (1000 - (134 : Int) * 10 + (67 : Int) * 5 = -5) ∧
    ((0 : Int) ≠ -5) := by
  refine ⟨by decide, by decide, by decide, by decide, by decide,
    by decide, by decide⟩

theorem generate_schedule_success_score (db : DB) (run : ScheduleRun)
    (term_id : Nat) (ps : Bool) :
    (generate_schedule db run term_id ps).success = true →
    (generate_schedule db run term_id ps).run.objective_score =
      some (calculate_objective_score
        (generate_schedule db run term_id ps).state) := by
  simp only [generate_schedule]
  split
  · intro h; exact absurd h (by simp)
  · split
    · intro h; exact absurd h (by simp)
    · split
      · intro h; exact absurd h (by simp)
      · split
        · intro h; exact absurd h (by simp)
        · intro _; rfl

/-- C7 amended: on every run that returns success the reported objective
score equals `max 0 (1000 - 10 * soft + 5 * assignments)`: the clamp at
zero is part of the formula and no gap penalty term exists in the code. -/
theorem C7_amended_clamped_formula (db : DB) (run : ScheduleRun)
    (term_id : Nat) (ps : Bool)
    (h : (generate_schedule db run term_id ps).success = true) :
    (generate_schedule db run term_id ps).run.objective_score =
      some (max 0 (1000 -
        (((generate_schedule db run term_id ps).state.violations.filter
          (fun v => decide (v.constraint_type = "SOFT"))).length : Int) * 10 +
        ((generate_schedule db run term_id ps).state.assignments.length : Int)
          * 5)) := by
  rw [generate_schedule_success_score db run term_id ps h]
  rfl

/-- One of the three units of the C7 witness scenario (the three-unit happy
path): distinct non-senior full-time teachers, 3.0-unit standard courses. -/
def c7w_mk_unit (i : Nat) : TeachingAssignment :=
  ⟨i, ⟨i, .PERMANENT, .FULL_TIME, false⟩, ⟨i, 30, .STANDARD⟩, ⟨i, false⟩, 1⟩

/-- Database of the C7 witness scenario. -/
def c7w_db : DB :=
  ⟨[c7w_mk_unit 1, c7w_mk_unit 2, c7w_mk_unit 3],
   [⟨1, .MON, 450, 540, false⟩], [⟨1, "A101", .STANDARD, 30, true⟩],
   [], [], []⟩

/-- Run row of the C7 witness scenario. -/
def c7w_run : ScheduleRun := ⟨1, 1, .DRAFT, none⟩

/-- C7 amended witness: the three-unit happy path succeeds, and the score
reported there matches the clamped formula (0 soft violations, 3
assignments, hence 1015). -/
theorem C7_amended_clamped_formula_witness :
    (generate_schedule c7w_db c7w_run 1 true).success = true ∧
    (generate_schedule c7w_db c7w_run 1 true).run.objective_score =
      some (max 0 (1000 -
        (((generate_schedule c7w_db c7w_run 1 true).state.violations.filter
          (fun v => decide (v.constraint_type = "SOFT"))).length : Int) * 10 +
        ((generate_schedule c7w_db c7w_run 1 true).state.assignments.length :
          Int) * 5)) ∧
    (generate_schedule c7w_db c7w_run 1 true).run.objective_score =
      some 1015 :=
  ⟨by decide, C7_amended_clamped_formula c7w_db c7w_run 1 true (by decide),
   by decide⟩

/-- The shared teacher of the C8 scenario. -/
def c8_teacher : Teacher := ⟨1, .PERMANENT, .FULL_TIME, false⟩

/-- C8 scenario unit with the larger id, listed first. -/
def c8_uA : TeachingAssignment :=
  ⟨5, c8_teacher, ⟨1, 30, .STANDARD⟩, ⟨1, false⟩, 1⟩

/-- C8 scenario unit with the smaller id, listed second; its priority key
equals that of `c8_uA`. -/
def c8_uB : TeachingAssignment :=
  ⟨3, c8_teacher, ⟨1, 30, .STANDARD⟩, ⟨1, false⟩, 1⟩

/-- C8 counterexample: two units with identical priority keys keep their
input order [5, 3] after sorting; the ascending-id order [3, 5] promised by
the claimed id tiebreak does not hold. -/
theorem C8_counterexample :
    priority_key true c8_uA = priority_key true c8_uB ∧
    (sort_assignments_by_priority [c8_uA, c8_uB] true).map
      (fun a => a.id) = [5, 3] ∧
    [5, 3] ≠ [3, 5] := by
  refine ⟨by decide, by decide, by decide⟩

instance (ps : Bool) : IsTotal TeachingAssignment (priorityRel ps) :=
  ⟨by intro a b; unfold priorityRel keyLex; omega⟩

instance (ps : Bool) : IsTrans TeachingAssignment (priorityRel ps) :=
  ⟨by intro a b c hab hbc; unfold priorityRel keyLex at hab hbc ⊢; omega⟩

/-- C8 amended: the priority sort orders units ascending by the
three-component lexicographic key (senior flag, employment-class rank with
Permanent mapping to 0 or 2 and ContractOfService to 1 or 3, first-year
flag), it permutes the input, and it is stable: the key has no id
component, so two units whose keys are related keep their input order
rather than being reordered by id. -/
theorem C8_amended_stable_priority_sort (tas : List TeachingAssignment)
    (ps : Bool) :
    List.Sorted (priorityRel ps) (sort_assignments_by_priority tas ps) ∧
    List.Perm (sort_assignments_by_priority tas ps) tas ∧
    ∀ a b, priorityRel ps a b → List.Sublist [a, b] tas →
      List.Sublist [a, b] (sort_assignments_by_priority tas ps) := by
  refine ⟨List.sorted_insertionSort _ _, List.perm_insertionSort _ _, ?_⟩
  intro a b hab hsub
  exact List.pair_sublist_insertionSort hab hsub

/-- C8 amended witness: sortedness, permutation, and the stability
consequence at the concrete equal-key pair of the C8 scenario. -/
theorem C8_amended_stable_priority_sort_witness :
    List.Sorted (priorityRel true)
      (sort_assignments_by_priority [c8_uA, c8_uB] true) ∧
    List.Perm (sort_assignments_by_priority [c8_uA, c8_uB] true)
      [c8_uA, c8_uB] ∧
    List.Sublist [c8_uA, c8_uB]
      (sort_assignments_by_priority [c8_uA, c8_uB] true) :=
  ⟨(C8_amended_stable_priority_sort [c8_uA, c8_uB] true).1,
   (C8_amended_stable_priority_sort [c8_uA, c8_uB] true).2.1,
   (C8_amended_stable_priority_sort [c8_uA, c8_uB] true).2.2 c8_uA c8_uB
     (by decide) (List.Sublist.refl _)⟩

end Scheduling
